import Mathlib

/-!
Verification of the TriggerQueue blocking-queue layer of iceoryx
(`iceoryx_utils/internal/concurrent/trigger_queue.hpp`).

The header in the repository is a declaration surface: it declares the
class `TriggerQueue<T, Capacity, QueueType>` with members `m_queue`
(the backend queue instance) and `m_toBeDestroyed` (an atomic bool),
the public operations `push`, `pop`, `empty`, `size`, `capacity`,
`destroy`, and the two `QueueAdapter` strategies (a generic one and a
specialization for `LockFreeQueue`).  The member-function bodies live
in `trigger_queue.inl`, which is not part of the sources at hand, so
the operation bodies below are modelled from the specification and from
the doc comments in the header itself; the state shape (which members
exist) is taken directly from the header.

All machine integers involved (`uint64_t` sizes and capacities) stay
far below 2^64 in every statement below, so they are embedded as `Nat`.
-/

namespace Iox

/-- Modelled from the spec: the Bounded Queue Backend (external
collaborator, §4.3 of the spec; the concrete `QueueType<T, Capacity>`
classes are not among the sources).  A capacity-bounded FIFO container:
it owns storage for up to `Capacity` elements and its occupancy is
always in `[0, Capacity]`. -/
structure BoundedQueue (T : Type) (Capacity : Nat) where
  elems : List T
  size_le : elems.length ≤ Capacity

/-- Modelled from the spec: `try_push(value) -> bool` of the backend
under the reject-on-full overflow policy: never blocks, fails exactly
when the queue is full.  Embedded as `Option` of the new backend state
(`none` = rejected, backend untouched). -/
def BoundedQueue.tryPush {T : Type} {C : Nat} (b : BoundedQueue T C) (v : T) :
    Option (BoundedQueue T C) :=
  if h : b.elems.length < C then
    some ⟨b.elems ++ [v], by simpa using h⟩
  else
    none

/-- Modelled from the spec: `try_pop() -> optional<T>` of the backend:
never blocks, removes and returns the oldest element when one is
present. -/
def BoundedQueue.tryPop {T : Type} {C : Nat} (b : BoundedQueue T C) :
    Option (T × BoundedQueue T C) :=
  match b with
  | ⟨[], _⟩ => none
  | ⟨x :: xs, h⟩ => some (x, ⟨xs, Nat.le_of_succ_le h⟩)

/-- Modelled from the spec: the overwrite-capable push of the
`LockFreeQueue` backend: it always accepts the value, silently evicting
the oldest element when the queue is full (for the degenerate capacity
zero there is no slot, so nothing can be stored). -/
def BoundedQueue.overwritingPush {T : Type} {C : Nat} (b : BoundedQueue T C) (v : T) :
    BoundedQueue T C :=
  if h : b.elems.length < C then
    ⟨b.elems ++ [v], by simpa using h⟩
  else if hC : C = 0 then
    b
  else
    ⟨b.elems.tail ++ [v], by
      have hlen : b.elems.length = C := Nat.le_antisymm b.size_le (Nat.le_of_not_lt h)
      have hpos : 0 < C := Nat.pos_of_ne_zero hC
      simp [List.length_tail, hlen]
      omega⟩

/-- Modelled from the spec: the generic `QueueAdapter::push` strategy,
a pass-through of the backend's reject-on-full `try_push`, returning
the success flag together with the (possibly unchanged) backend. -/
def QueueAdapter.push {T : Type} {C : Nat} (queue : BoundedQueue T C) (v : T) :
    Bool × BoundedQueue T C :=
  match queue.tryPush v with
  | some q => (true, q)
  | none => (false, queue)

/-- Modelled from the spec: the `QueueAdapter` specialization for
`LockFreeQueue`: the backend always accepts (possibly evicting the
oldest element), and the adapter reports that acceptance as `true`. -/
def QueueAdapterLockFree.push {T : Type} {C : Nat} (queue : BoundedQueue T C) (v : T) :
    Bool × BoundedQueue T C :=
  (true, queue.overwritingPush v)

/-- The state of a `TriggerQueue<T, Capacity, QueueType>` instance,
taken from the class definition in the header: exactly the backend
queue member `m_queue` and the atomic shutdown flag `m_toBeDestroyed`
(initialized to `false`).  The reject-on-full backend with the generic
adapter is the instantiation used throughout. -/
structure TriggerQueue (T : Type) (Capacity : Nat) where
  m_queue : BoundedQueue T Capacity
  m_toBeDestroyed : Bool

/-- The freshly constructed trigger queue: empty backend, shutdown flag
`false` (the header default-initializes `m_toBeDestroyed{false}`). -/
def TriggerQueue.initial (T : Type) (Capacity : Nat) : TriggerQueue T Capacity :=
  ⟨⟨[], Nat.zero_le _⟩, false⟩

/-- Modelled from the spec: `push` attempts to insert the value via the
adapter and returns `false` immediately, without side effects, if the
backend is full (reject policy) or if the shutdown flag is set;
otherwise the element is inserted and `true` is returned. -/
def TriggerQueue.push {T : Type} {C : Nat} (q : TriggerQueue T C) (v : T) :
    Bool × TriggerQueue T C :=
  if q.m_toBeDestroyed then
    (false, q)
  else
    ((QueueAdapter.push q.m_queue v).1,
      ⟨(QueueAdapter.push q.m_queue v).2, q.m_toBeDestroyed⟩)

/-- Modelled from the spec: `pop` is non-blocking: it removes and
returns the oldest element when one is immediately available and
returns an empty optional otherwise, never touching anything else. -/
def TriggerQueue.pop {T : Type} {C : Nat} (q : TriggerQueue T C) :
    Option T × TriggerQueue T C :=
  match q.m_queue.tryPop with
  | none => (none, q)
  | some (x, b) => (some x, ⟨b, q.m_toBeDestroyed⟩)

/-- Modelled from the spec: `empty` reports whether the backend holds
no element. -/
def TriggerQueue.empty {T : Type} {C : Nat} (q : TriggerQueue T C) : Bool :=
  q.m_queue.elems.isEmpty

/-- Modelled from the spec: `size` reports the current backend
occupancy. -/
def TriggerQueue.size {T : Type} {C : Nat} (q : TriggerQueue T C) : Nat :=
  q.m_queue.elems.length

/-- The capacity of the trigger queue, a compile-time constant
(`static constexpr uint64_t CAPACITY = Capacity` in the header). -/
def TriggerQueue.capacity (T : Type) (C : Nat) : Nat := C

/-- Modelled from the spec: `destroy` performs the one-way transition
of the shutdown flag to `true`; it changes nothing else. -/
def TriggerQueue.destroy {T : Type} {C : Nat} (q : TriggerQueue T C) :
    TriggerQueue T C :=
  ⟨q.m_queue, true⟩

/-- The public state-changing operations of the trigger queue, used to
quantify over arbitrary call sequences. -/
inductive Op (T : Type) where
  | push (v : T)
  | pop
  | destroy

/-- The state reached by one public operation (discarding the returned
value). -/
def TriggerQueue.step {T : Type} {C : Nat} (q : TriggerQueue T C) : Op T → TriggerQueue T C
  | Op.push v => (q.push v).2
  | Op.pop => (q.pop).2
  | Op.destroy => q.destroy

/-- The state reached by a sequence of public operations. -/
def TriggerQueue.exec {T : Type} {C : Nat} (q : TriggerQueue T C) : List (Op T) → TriggerQueue T C
  | [] => q
  | op :: ops => (q.step op).exec ops

/-- The results and final state of pushing a list of values one by one
(oldest first). -/
def TriggerQueue.pushAll {T : Type} {C : Nat} (q : TriggerQueue T C) :
    List T → List Bool × TriggerQueue T C
  | [] => ([], q)
  | v :: vs =>
    match q.push v with
    | (ok, q1) =>
      match q1.pushAll vs with
      | (oks, q2) => (ok :: oks, q2)

/-- The results and final state of calling `pop` a given number of
times. -/
def TriggerQueue.popN {T : Type} {C : Nat} (q : TriggerQueue T C) :
    Nat → List (Option T) × TriggerQueue T C
  | 0 => ([], q)
  | n + 1 =>
    match q.pop with
    | (r, q1) =>
      match q1.popN n with
      | (rs, q2) => (r :: rs, q2)

/-- Modelled from the spec: the Blocking Queue state as §3 of the spec
describes it, for comparison with the state the header actually
declares: one backend instance, one wake-up-signal object (a counting
signal: conceptually one pending signal per available element), and the
`is-destroying` flag. -/
structure SpecBlockingQueueState (T : Type) (Capacity : Nat) where
  backend : BoundedQueue T Capacity
  wakeupSignal : Nat
  isDestroying : Bool

/-! General lemmas about the operations, shared by the claim proofs. -/

theorem TriggerQueue.push_of_destroyed {T : Type} {C : Nat} (q : TriggerQueue T C) (v : T)
    (h : q.m_toBeDestroyed = true) : q.push v = (false, q) := by
  simp [TriggerQueue.push, h]

theorem TriggerQueue.push_flag {T : Type} {C : Nat} (q : TriggerQueue T C) (v : T) :
    (q.push v).2.m_toBeDestroyed = q.m_toBeDestroyed := by
  unfold TriggerQueue.push
  split <;> rfl

theorem TriggerQueue.pop_flag {T : Type} {C : Nat} (q : TriggerQueue T C) :
    (q.pop).2.m_toBeDestroyed = q.m_toBeDestroyed := by
  obtain ⟨⟨es, hle⟩, d⟩ := q
  cases es <;> rfl

theorem TriggerQueue.pop_size_le {T : Type} {C : Nat} (q : TriggerQueue T C) :
    (q.pop).2.size ≤ q.size := by
  obtain ⟨⟨es, hle⟩, d⟩ := q
  cases es with
  | nil => exact Nat.le_refl _
  | cons x xs =>
    simp [TriggerQueue.pop, BoundedQueue.tryPop, TriggerQueue.size]

theorem TriggerQueue.step_flag {T : Type} {C : Nat} (q : TriggerQueue T C) (op : Op T)
    (h : q.m_toBeDestroyed = true) : (q.step op).m_toBeDestroyed = true := by
  cases op with
  | push v => rw [TriggerQueue.step, TriggerQueue.push_flag]; exact h
  | pop => rw [TriggerQueue.step, TriggerQueue.pop_flag]; exact h
  | destroy => rfl

theorem TriggerQueue.exec_flag {T : Type} {C : Nat} (ops : List (Op T))
    (q : TriggerQueue T C) (h : q.m_toBeDestroyed = true) :
    (q.exec ops).m_toBeDestroyed = true := by
  induction ops generalizing q with
  | nil => exact h
  | cons op ops ih => exact ih _ (TriggerQueue.step_flag q op h)

theorem TriggerQueue.step_size_of_destroyed {T : Type} {C : Nat} (q : TriggerQueue T C)
    (op : Op T) (h : q.m_toBeDestroyed = true) : (q.step op).size ≤ q.size := by
  cases op with
  | push v => rw [TriggerQueue.step, TriggerQueue.push_of_destroyed q v h]
  | pop => exact TriggerQueue.pop_size_le q
  | destroy => exact Nat.le_refl _

theorem TriggerQueue.exec_size_of_destroyed {T : Type} {C : Nat} (ops : List (Op T))
    (q : TriggerQueue T C) (h : q.m_toBeDestroyed = true) :
    (q.exec ops).size ≤ q.size := by
  induction ops generalizing q with
  | nil => exact Nat.le_refl _
  | cons op ops ih =>
    exact Nat.le_trans (ih _ (TriggerQueue.step_flag q op h))
      (TriggerQueue.step_size_of_destroyed q op h)

theorem TriggerQueue.pushAll_of_not_destroyed {T : Type} {C : Nat} (vs : List T) :
    ∀ (q : TriggerQueue T C), q.m_toBeDestroyed = false →
      q.m_queue.elems.length + vs.length ≤ C →
      (q.pushAll vs).1 = List.replicate vs.length true ∧
        (q.pushAll vs).2.m_queue.elems = q.m_queue.elems ++ vs ∧
        (q.pushAll vs).2.m_toBeDestroyed = false := by
  induction vs with
  | nil => intro q hd hlen; simp [TriggerQueue.pushAll, hd]
  | cons v vs ih =>
    intro q hd hlen
    obtain ⟨⟨es, hle⟩, d⟩ := q
    simp only at hd
    subst hd
    have hlt : es.length < C := by
      simp at hlen
      omega
    have hstep :
        TriggerQueue.push (⟨⟨es, hle⟩, false⟩ : TriggerQueue T C) v =
          (true, ⟨⟨es ++ [v], by simpa using hlt⟩, false⟩) := by
      simp [TriggerQueue.push, QueueAdapter.push, BoundedQueue.tryPush, hlt]
    have hrec := ih (⟨⟨es ++ [v], by simpa using hlt⟩, false⟩ : TriggerQueue T C) rfl
      (by simp at hlen ⊢; omega)
    simp only [TriggerQueue.pushAll, hstep]
    refine ⟨?_, ?_, hrec.2.2⟩
    · simp [hrec.1, List.replicate]
    · simp only [hrec.2.1]
      simp

theorem TriggerQueue.popN_drain_aux {T : Type} {C : Nat} :
    ∀ (es : List T) (hle : es.length ≤ C) (d : Bool),
      ((TriggerQueue.mk ⟨es, hle⟩ d).popN es.length).1 = es.map some := by
  intro es
  induction es with
  | nil => intro hle d; rfl
  | cons x xs ih =>
    intro hle d
    simp only [List.length_cons, TriggerQueue.popN, TriggerQueue.pop,
      BoundedQueue.tryPop]
    simp [ih (Nat.le_of_succ_le hle) d]

theorem TriggerQueue.popN_drain {T : Type} {C : Nat} (q : TriggerQueue T C) :
    (q.popN q.m_queue.elems.length).1 = q.m_queue.elems.map some :=
  TriggerQueue.popN_drain_aux q.m_queue.elems q.m_queue.size_le q.m_toBeDestroyed

/-! Claim theorems. -/

/-- Claim C2: `push(v)` returns `false` immediately and without any side
effect (state unchanged) whenever the backend is full under the reject
policy or the shutdown flag is set; otherwise it inserts `v` via the
adapter (appending it to the backend) and returns `true`. -/
theorem claim_C2_push_contract {T : Type} {C : Nat} (q : TriggerQueue T C) (v : T) :
    ((q.m_toBeDestroyed = true ∨ q.m_queue.elems.length = C) →
      (q.push v).1 = false ∧ (q.push v).2 = q) ∧
    ((q.m_toBeDestroyed = false ∧ q.m_queue.elems.length < C) →
      (q.push v).1 = true ∧ (q.push v).2.m_queue.elems = q.m_queue.elems ++ [v] ∧
        (q.push v).2.m_toBeDestroyed = q.m_toBeDestroyed) := by
  obtain ⟨⟨es, hle⟩, d⟩ := q
  constructor
  · rintro (hd | hfull)
    · simp only at hd
      subst hd
      simp [TriggerQueue.push]
    · simp only at hfull
      cases d with
      | true => simp [TriggerQueue.push]
      | false =>
        have hnlt : ¬es.length < C := by omega
        simp [TriggerQueue.push, QueueAdapter.push, BoundedQueue.tryPush, hnlt]
  · rintro ⟨hd, hlt⟩
    simp only at hd hlt
    subst hd
    simp [TriggerQueue.push, QueueAdapter.push, BoundedQueue.tryPush, hlt]

/-- Witness for claim C2 at concrete inputs: a destroyed queue rejects a
push and stays unchanged, and a fresh queue with free capacity accepts
one. -/
theorem claim_C2_push_contract_witness :
    ((TriggerQueue.mk (⟨[7], by decide⟩ : BoundedQueue Nat 2) true).push 5).1 = false ∧
    ((TriggerQueue.initial Nat 2).push 5).1 = true :=
  ⟨((claim_C2_push_contract (TriggerQueue.mk (⟨[7], by decide⟩ : BoundedQueue Nat 2) true) 5).1
      (Or.inl rfl)).1,
    ((claim_C2_push_contract (TriggerQueue.initial Nat 2) 5).2 ⟨rfl, by decide⟩).1⟩

/-- Claim C3: the shutdown flag only moves from `false` to `true` and is
never reset (`push` and `pop` leave it exactly as it was, `destroy` sets
it to `true`), and `destroy` is idempotent: a second call yields exactly
the state of the first, so it has no additional observable effect. -/
theorem claim_C3_flag_oneway_and_destroy_idempotent {T : Type} {C : Nat} :
    (∀ q : TriggerQueue T C, q.destroy.destroy = q.destroy) ∧
    (∀ q : TriggerQueue T C, q.destroy.m_toBeDestroyed = true) ∧
    (∀ q : TriggerQueue T C, q.destroy.m_queue = q.m_queue) ∧
    (∀ (q : TriggerQueue T C) (v : T), (q.push v).2.m_toBeDestroyed = q.m_toBeDestroyed) ∧
    (∀ q : TriggerQueue T C, (q.pop).2.m_toBeDestroyed = q.m_toBeDestroyed) :=
  ⟨fun _ => rfl, fun _ => rfl, fun _ => rfl,
    fun q v => TriggerQueue.push_flag q v, fun q => TriggerQueue.pop_flag q⟩

/-- Claim C4: after `destroy()` has returned, every subsequent `push`
returns `false` and the backend occupancy never increases, along every
sequence of further public operations. -/
theorem claim_C4_destroy_rejects_future_pushes {T : Type} {C : Nat}
    (q : TriggerQueue T C) (ops : List (Op T)) (v : T) :
    ((q.destroy.exec ops).push v).1 = false ∧
    (q.destroy.exec ops).size ≤ q.size := by
  have hflag : (q.destroy.exec ops).m_toBeDestroyed = true :=
    TriggerQueue.exec_flag ops q.destroy rfl
  constructor
  · rw [TriggerQueue.push_of_destroyed _ v hflag]
  · exact TriggerQueue.exec_size_of_destroyed ops q.destroy rfl

/-- Claim C5: starting from the freshly constructed queue, a sequence of
N successful pushes (no intervening destroy) followed by N pops
retrieves exactly the N pushed elements, each exactly once, in FIFO
order. -/
theorem claim_C5_no_data_loss {T : Type} {C : Nat} (vs : List T)
    (h : vs.length ≤ C) :
    ((TriggerQueue.initial T C).pushAll vs).1 = List.replicate vs.length true ∧
    ((((TriggerQueue.initial T C).pushAll vs).2).popN vs.length).1 = vs.map some := by
  have hall := TriggerQueue.pushAll_of_not_destroyed vs (TriggerQueue.initial T C) rfl
    (by simpa [TriggerQueue.initial] using h)
  refine ⟨hall.1, ?_⟩
  have hes : (((TriggerQueue.initial T C).pushAll vs).2).m_queue.elems = vs := by
    simpa [TriggerQueue.initial] using hall.2.1
  have hdrain := TriggerQueue.popN_drain (((TriggerQueue.initial T C).pushAll vs).2)
  rw [hes] at hdrain
  exact hdrain

/-- Witness for claim C5: pushing three values into a fresh queue of
capacity three succeeds throughout and popping three times returns them
in order. -/
theorem claim_C5_no_data_loss_witness :
    ((TriggerQueue.initial Nat 3).pushAll [10, 20, 30]).1 =
      List.replicate ([10, 20, 30] : List Nat).length true ∧
    ((((TriggerQueue.initial Nat 3).pushAll [10, 20, 30]).2).popN
        ([10, 20, 30] : List Nat).length).1 = ([10, 20, 30] : List Nat).map some :=
  claim_C5_no_data_loss [10, 20, 30] (by decide)

/-- Claim C6: the concrete scenario at capacity 2 with the reject-on-full
backend: push(1) → true, push(2) → true, push(3) → false, pop() → 1,
push(3) → true, pop() → 2, pop() → 3, pop() → empty. -/
theorem claim_C6_concrete_scenario :
    ((TriggerQueue.initial Nat 2).push 1).1 = true ∧
    (((TriggerQueue.initial Nat 2).push 1).2.push 2).1 = true ∧
    ((((TriggerQueue.initial Nat 2).push 1).2.push 2).2.push 3).1 = false ∧
    (((((TriggerQueue.initial Nat 2).push 1).2.push 2).2.push 3).2.pop).1 = some 1 ∧
    ((((((TriggerQueue.initial Nat 2).push 1).2.push 2).2.push 3).2.pop).2.push 3).1 = true ∧
    (((((((TriggerQueue.initial Nat 2).push 1).2.push 2).2.push 3).2.pop).2.push 3).2.pop).1
      = some 2 ∧
    ((((((((TriggerQueue.initial Nat 2).push 1).2.push 2).2.push 3).2.pop).2.push
      3).2.pop).2.pop).1 = some 3 ∧
    (((((((((TriggerQueue.initial Nat 2).push 1).2.push 2).2.push 3).2.pop).2.push
      3).2.pop).2.pop).2.pop).1 = none := by
  decide

/-- Claim C7: `pop` is non-blocking and purely consuming: on an empty
backend it returns an empty optional and leaves the state untouched; on
a non-empty backend it returns the oldest element, removes exactly that
element, and changes nothing else (in particular the shutdown flag). -/
theorem claim_C7_pop_nonblocking {T : Type} {C : Nat} (q : TriggerQueue T C) :
    (q.m_queue.elems = [] → q.pop = (none, q)) ∧
    (∀ (x : T) (xs : List T), q.m_queue.elems = x :: xs →
      (q.pop).1 = some x ∧ (q.pop).2.m_queue.elems = xs ∧
        (q.pop).2.m_toBeDestroyed = q.m_toBeDestroyed) := by
  obtain ⟨⟨es, hle⟩, d⟩ := q
  constructor
  · intro hnil
    simp only at hnil
    subst hnil
    rfl
  · intro x xs hcons
    simp only at hcons
    subst hcons
    exact ⟨rfl, rfl, rfl⟩

/-- Witness for claim C7 at concrete inputs: popping a fresh empty queue
returns an empty optional with the state unchanged, and popping a queue
holding 5 returns 5. -/
theorem claim_C7_pop_nonblocking_witness :
    (TriggerQueue.initial Nat 2).pop = (none, TriggerQueue.initial Nat 2) ∧
    ((TriggerQueue.mk (⟨[5], by decide⟩ : BoundedQueue Nat 2) false).pop).1 = some 5 :=
  ⟨(claim_C7_pop_nonblocking (TriggerQueue.initial Nat 2)).1 rfl,
    ((claim_C7_pop_nonblocking
        (TriggerQueue.mk (⟨[5], by decide⟩ : BoundedQueue Nat 2) false)).2 5 [] rfl).1⟩

/-- Counterexample to claim C8 as stated: the TriggerQueue state does
NOT comprise a wake-up-signal component.  The state space the spec
describes (backend plus counting wake-up signal plus flag) cannot even
be mapped injectively into the state space the class declares, already
for `T = Unit` and capacity 1, because the declared state (`m_queue`
and `m_toBeDestroyed` only) is finite there while a counting signal has
infinitely many values. -/
theorem claim_C8_counterexample :
    ¬ ∃ f : SpecBlockingQueueState Unit 1 → TriggerQueue Unit 1, Function.Injective f := by
  rintro ⟨f, hf⟩
  have hsmall : ∀ l : List Unit, l.length ≤ 1 → l = [] ∨ l = [()] := by
    intro l hl
    cases l with
    | nil => exact Or.inl rfl
    | cons x xs =>
      cases x
      cases xs with
      | nil => exact Or.inr rfl
      | cons y ys => simp at hl
  have hgi : Function.Injective
      (fun q : TriggerQueue Unit 1 => (q.m_queue.elems.isEmpty, q.m_toBeDestroyed)) := by
    rintro ⟨⟨es₁, h₁⟩, d₁⟩ ⟨⟨es₂, h₂⟩, d₂⟩ heq
    simp only [Prod.mk.injEq] at heq
    obtain ⟨hise, hd⟩ := heq
    have he : es₁ = es₂ := by
      rcases hsmall es₁ h₁ with h | h <;> rcases hsmall es₂ h₂ with h' | h' <;>
        simp [h, h'] at hise ⊢
    subst he
    cases hd
    rfl
  haveI : Finite (TriggerQueue Unit 1) := Finite.of_injective _ hgi
  haveI : Finite (SpecBlockingQueueState Unit 1) := Finite.of_injective f hf
  haveI : Infinite (SpecBlockingQueueState Unit 1) :=
    Infinite.of_injective
      (fun n : Nat => SpecBlockingQueueState.mk ⟨[], Nat.zero_le _⟩ n false)
      (by
        intro a b h
        simpa using congrArg SpecBlockingQueueState.wakeupSignal h)
  exact not_finite (SpecBlockingQueueState Unit 1)

/-- Claim C8 as amended: the state of every TriggerQueue instance
consists of exactly one backend queue instance plus the single
is-destroying shutdown flag (the class declares no wake-up-signal
member): projecting onto that pair is a bijection on states. -/
theorem claim_C8_state_shape {T : Type} {C : Nat} :
    Function.Bijective
      (fun q : TriggerQueue T C => (q.m_queue, q.m_toBeDestroyed)) := by
  constructor
  · rintro ⟨b₁, d₁⟩ ⟨b₂, d₂⟩ heq
    simp only [Prod.mk.injEq] at heq
    rw [heq.1, heq.2]
  · rintro ⟨b, d⟩
    exact ⟨⟨b, d⟩, rfl⟩

/-- Claim C9: both adapter strategies expose the same
`push(backend, value) -> bool` contract: when the reported result is
`true` the value was inserted (it is the newest element of the backend),
and when it is `false` the backend is untouched; the generic strategy
passes the reject-on-full result through, while the `LockFreeQueue`
strategy (for any non-degenerate capacity) always accepts, possibly
evicting the oldest element.  Both are total functions of the same
type, so the compile-time selection between them cannot fail at
runtime. -/
theorem claim_C9_adapter_uniform_contract {T : Type} {C : Nat}
    (b : BoundedQueue T C) (v : T) :
    ((QueueAdapter.push b v).1 = true →
      (QueueAdapter.push b v).2.elems = b.elems ++ [v]) ∧
    ((QueueAdapter.push b v).1 = false → (QueueAdapter.push b v).2 = b) ∧
    (0 < C →
      (QueueAdapterLockFree.push b v).1 = true ∧
      (QueueAdapterLockFree.push b v).2.elems.getLast? = some v) := by
  obtain ⟨es, hle⟩ := b
  refine ⟨?_, ?_, ?_⟩
  · intro htrue
    by_cases hlt : es.length < C
    · simp [QueueAdapter.push, BoundedQueue.tryPush, hlt]
    · simp [QueueAdapter.push, BoundedQueue.tryPush, hlt] at htrue
  · intro hfalse
    by_cases hlt : es.length < C
    · simp [QueueAdapter.push, BoundedQueue.tryPush, hlt] at hfalse
    · simp [QueueAdapter.push, BoundedQueue.tryPush, hlt]
  · intro hC
    refine ⟨rfl, ?_⟩
    unfold QueueAdapterLockFree.push BoundedQueue.overwritingPush
    by_cases hlt : es.length < C
    · simp [hlt]
    · have hC0 : ¬C = 0 := Nat.pos_iff_ne_zero.mp hC
      simp [hlt, hC0]

/-- Witness for claim C9 at a full backend of capacity 1: the generic
adapter reports `false` and leaves the backend alone, while the
lock-free adapter reports `true` with the new value as newest element. -/
theorem claim_C9_adapter_uniform_contract_witness :
    (QueueAdapter.push (⟨[9], by decide⟩ : BoundedQueue Nat 1) 5).2 =
      (⟨[9], by decide⟩ : BoundedQueue Nat 1) ∧
    (QueueAdapterLockFree.push (⟨[9], by decide⟩ : BoundedQueue Nat 1) 5).1 = true ∧
    (QueueAdapterLockFree.push (⟨[9], by decide⟩ : BoundedQueue Nat 1) 5).2.elems.getLast?
      = some 5 :=
  ⟨(claim_C9_adapter_uniform_contract (⟨[9], by decide⟩ : BoundedQueue Nat 1) 5).2.1 (by decide),
    ((claim_C9_adapter_uniform_contract (⟨[9], by decide⟩ : BoundedQueue Nat 1) 5).2.2
      (by decide)).1,
    ((claim_C9_adapter_uniform_contract (⟨[9], by decide⟩ : BoundedQueue Nat 1) 5).2.2
      (by decide)).2⟩

/-- Claim C10: every public operation is a total function (so nothing
throws or panics) and failure is communicated solely through the return
value: a failing `push` returns `false` with the state untouched, a
failing `pop` returns an empty optional with the state untouched, and
no operation ever corrupts the backend bound. -/
theorem claim_C10_failure_by_return_value {T : Type} {C : Nat}
    (q : TriggerQueue T C) (v : T) :
    ((q.push v).1 = false → (q.push v).2 = q) ∧
    ((q.pop).1 = none → (q.pop).2 = q) ∧
    (q.push v).2.m_queue.elems.length ≤ C ∧
    (q.pop).2.m_queue.elems.length ≤ C ∧
    q.destroy.m_queue = q.m_queue ∧
    q.size ≤ TriggerQueue.capacity T C := by
  obtain ⟨⟨es, hle⟩, d⟩ := q
  refine ⟨?_, ?_, ?_, ?_, rfl, hle⟩
  · intro hfalse
    cases d with
    | true => rfl
    | false =>
      by_cases hlt : es.length < C
      · simp [TriggerQueue.push, QueueAdapter.push, BoundedQueue.tryPush, hlt] at hfalse
      · simp [TriggerQueue.push, QueueAdapter.push, BoundedQueue.tryPush, hlt]
  · intro hnone
    cases es with
    | nil => rfl
    | cons x xs =>
      simp [TriggerQueue.pop, BoundedQueue.tryPop] at hnone
  · exact ((TriggerQueue.push ⟨⟨es, hle⟩, d⟩ v).2).m_queue.size_le
  · exact ((TriggerQueue.pop ⟨⟨es, hle⟩, d⟩).2).m_queue.size_le

/-- Witness for claim C10 at concrete inputs: a push onto a destroyed
queue fails leaving the state unchanged, and a pop from a fresh empty
queue fails leaving the state unchanged. -/
theorem claim_C10_failure_by_return_value_witness :
    (((TriggerQueue.mk (⟨[4], by decide⟩ : BoundedQueue Nat 1) true).push 5).2 =
      TriggerQueue.mk (⟨[4], by decide⟩ : BoundedQueue Nat 1) true) ∧
    ((TriggerQueue.initial Nat 1).pop).2 = TriggerQueue.initial Nat 1 :=
  ⟨(claim_C10_failure_by_return_value
      (TriggerQueue.mk (⟨[4], by decide⟩ : BoundedQueue Nat 1) true) 5).1 rfl,
    (claim_C10_failure_by_return_value (TriggerQueue.initial Nat 1) 6).2.1 rfl⟩

end Iox
